import Mathlib

/-!
Verification of the `dataserver` service: a shallow embedding of
`app/services/job_manager.py` (job lifecycle manager) and
`app/services/data_processor.py` (file catalog, tabular loader, query-plan
interpreter), together with theorems settling the specification claims.

Conventions of the embedding:
* Python dict-valued job records become a `Job` structure.
* The Redis keyed store becomes an association list `Store` keyed by token;
  the TTL argument of `setex` carries no logic relevant here and is dropped.
* Timestamps (`datetime.now(...).isoformat()`) are threaded as an abstract
  `now : Nat` argument.
* Python truthiness of optional arguments (`if step:`, `if data:`,
  `if error:`, `if max_files ...`, `if plan.get(...)`) is modelled by
  explicit `pyTruthy*` helpers: `None`, `""`, `0`, `[]`, `{}` are falsy.
-/

/-! ## Python truthiness helpers -/

/-- Truthiness of an optional string: `None` and `""` are falsy. -/
def pyTruthyStr : Option String → Bool
  | some s => !s.isEmpty
  | none => false

/-- Truthiness of an optional list: `None` and `[]` are falsy. -/
def pyTruthyList {α : Type} : Option (List α) → Bool
  | some l => !l.isEmpty
  | none => false

/-- Truthiness of an optional natural: `None` and `0` are falsy. -/
def pyTruthyNat : Option Nat → Bool
  | some n => n != 0
  | none => false

/-! ## Job lifecycle manager (`app/services/job_manager.py`) -/

/-- Generic structured payload standing in for the Python dicts used for
`params` and `data`. -/
abbrev Payload := List (String × String)

/-- One entry of the `steps` list built by `update_job_status`. -/
structure ProgressStep where
  step : Nat
  message : String
  timestamp : Nat
  deriving Repr, DecidableEq

/-- The job record dict built by `JobManager.create_job` (the `type`,
`created_at`, `params`, `steps`, `data`, `error` keys of `job_data`). -/
structure Job where
  token : Nat
  jobType : String
  status : String
  created_at : Nat
  params : Payload
  steps : List ProgressStep
  data : Option Payload
  error : Option String
  deriving Repr, DecidableEq

/-- The Redis keyed store, restricted to the `job:{token}` namespace:
an association list from token to job record. -/
abbrev Store := List (Nat × Job)

/-- Model of `redis_client.setex(f"job:\x7btoken\x7d", 3600, json.dumps(job_data))`:
(re)bind `token` to `j`, dropping any previous binding. -/
def setJob (s : Store) (token : Nat) (j : Job) : Store :=
  (token, j) :: s.filter (fun p => p.1 != token)

/-- Embedding of `JobManager.get_job`: fetch and decode the record, `none` if absent. -/
def get_job (s : Store) (token : Nat) : Option Job :=
  (s.find? (fun p => p.1 == token)).map (fun p => p.2)

/-- Embedding of `JobManager.update_job_status`: unconditionally overwrite `status`,
append a step when `step` is truthy, set `data` when truthy, and when
`error` is truthy record it and force `status` to `"failed"`. No-op when
the job record is gone. -/
def update_job_status (s : Store) (token : Nat) (status : String)
    (step : Option String) (data : Option Payload) (error : Option String)
    (now : Nat) : Store :=
  match get_job s token with
  | none => s
  | some jd =>
    let jd := { jd with status := status }
    let jd :=
      if pyTruthyStr step then
        { jd with steps := jd.steps ++
            [{ step := jd.steps.length + 1, message := step.getD "",
               timestamp := now }] }
      else jd
    let jd :=
      if pyTruthyList data then { jd with data := data } else jd
    let jd :=
      if pyTruthyStr error then
        { jd with error := error, status := "failed" }
      else jd
    setJob s token jd

/-- Embedding of `JobManager.cancel_job`: succeed only when the record exists and its
status is `"pending"` or `"running"`; then mark it cancelled via
`update_job_status` with the step message `"Job cancelled by user"`. -/
def cancel_job (s : Store) (token : Nat) (now : Nat) : Bool × Store :=
  match get_job s token with
  | some jd =>
    if jd.status = "pending" ∨ jd.status = "running" then
      (true, update_job_status s token "cancelled"
        (some "Job cancelled by user") none none now)
    else (false, s)
  | none => (false, s)

/-- The mutable state of a `JobManager` instance: the `job_counter`
attribute plus the keyed store. -/
structure JobManagerState where
  job_counter : Nat
  store : Store
  deriving Repr, DecidableEq

/-- Embedding of `JobManager.__init__`: counter starts at 0 (the store is external; we
take it empty at process start). -/
def initJobManager : JobManagerState := { job_counter := 0, store := [] }

/-- Embedding of `JobManager.create_job`: increment the counter, use it as the token,
store a fresh `"pending"` record, return the token. -/
def create_job (st : JobManagerState) (jobType : String) (params : Payload)
    (now : Nat) : Nat × JobManagerState :=
  let counter := st.job_counter + 1
  let token := counter
  let jobData : Job :=
    { token := token, jobType := jobType, status := "pending",
      created_at := now, params := params, steps := [], data := none,
      error := none }
  (token, { job_counter := counter, store := setJob st.store token jobData })

/-- Trace of tokens returned by `n` successive `create_job` calls (the
other arguments do not influence the token). -/
def createTokens : Nat → JobManagerState → List Nat
  | 0, _ => []
  | n + 1, st =>
    let r := create_job st "query" [] 0
    r.1 :: createTokens n r.2

/-! ## File catalog and tabular loader (`app/services/data_processor.py`) -/

/-- The `settings.allowed_extensions_list` value from `app/core/config.py`
(default `".csv,.parquet,.jsonl"`, split on commas). -/
def allowed_extensions_list : List String := [".csv", ".parquet", ".jsonl"]

/-- One filesystem entry produced by `path.glob(pattern)`: its path, whether
it is a regular file, and its `Path.suffix` (extension with leading dot,
possibly mixed case). -/
structure FsEntry where
  path : String
  isFile : Bool
  suffix : String
  deriving Repr, DecidableEq

/-- ASCII lower-casing of a string, character by character: the embedding
of Python's `str.lower()` (defined over the character list so that the
kernel can evaluate it). -/
def strLower (s : String) : String := String.mk (s.data.map Char.toLower)

/-- Embedding of `DataProcessor._is_supported_file`: the lower-cased suffix is in the
allow-list. -/
def _is_supported_file (e : FsEntry) : Bool :=
  allowed_extensions_list.contains (strLower e.suffix)

/-- The `for file_path in path.glob(pattern)` loop of
`DataProcessor.discover_files` (directory case): collect supported files in
traversal order and break as soon as `max_files` is truthy and the count
has reached it. -/
def discoverLoop (entries : List FsEntry) (files : List FsEntry)
    (max_files : Option Nat) : List FsEntry :=
  match entries with
  | [] => files
  | e :: rest =>
    if e.isFile && _is_supported_file e then
      let files := files ++ [e]
      if pyTruthyNat max_files && decide (files.length ≥ max_files.getD 0) then
        files
      else discoverLoop rest files max_files
    else discoverLoop rest files max_files

/-- Embedding of `DataProcessor.discover_files` on an existing directory whose glob
enumeration yields `entries` (we return the matched entries themselves;
`_get_file_info` only decorates them with stat data). -/
def discover_files (entries : List FsEntry) (max_files : Option Nat) :
    List FsEntry :=
  discoverLoop entries [] max_files

/-- The decoder selected by `DataProcessor._load_file`. -/
inductive Decoder where
  | read_csv
  | read_parquet
  | read_ndjson
  deriving Repr, DecidableEq

/-- Typed counterpart of the `ValueError` raised by `_load_file` for an
unrecognised extension. -/
inductive LoadError where
  | unsupportedFormat (suffix : String)
  deriving Repr, DecidableEq

/-- Embedding of `DataProcessor._load_file`: select the decoder by the lower-cased
`Path.suffix` of the path; raise for anything else. -/
def _load_file (suffix : String) : Except LoadError Decoder :=
  if strLower suffix == ".csv" then .ok .read_csv
  else if strLower suffix == ".parquet" then .ok .read_parquet
  else if strLower suffix == ".jsonl" then .ok .read_ndjson
  else .error (.unsupportedFormat suffix)

/-! ## Query-plan interpreter (`DataProcessor.execute_query`) -/

/-- A cell value: an integer or null (the claims only exercise integer
columns). -/
abbrev Value := Option Int

/-- A row of a Polars `DataFrame`, as a named-column record. -/
abbrev Row := List (String × Value)

/-- A `DataFrame`, row-major. -/
abbrev Table := List Row

/-- Value of column `c` in row `r` (the claims only exercise plans whose
columns exist; a missing column reads as null). -/
def Row.getVal (r : Row) (c : String) : Value :=
  match r.find? (fun p => p.1 == c) with
  | some p => p.2
  | none => none

/-- One `{col, op, val}` entry of `plan["filters"]`. -/
structure FilterCond where
  col : String
  op : String
  val : Int
  deriving Repr, DecidableEq

/-- One `{col, fn}` entry of `plan["aggs"]`. -/
structure AggSpec where
  col : String
  fn : String
  deriving Repr, DecidableEq

/-- The query-plan dict consumed by `execute_query` (the `dataset` key is
resolved to the source table by the caller in this embedding). -/
structure QueryPlan where
  filters : Option (List FilterCond)
  select : Option (List String)
  groupby : Option (List String)
  aggs : Option (List AggSpec)
  limit : Option Nat
  deriving Repr, DecidableEq

/-- Typed counterpart of a query-plan error such as the
`UnsupportedOperator` of the specification's taxonomy. -/
inductive QueryError where
  | unsupportedOperator (op : String)
  deriving Repr, DecidableEq

/-- Polars semantics of `pl.col(c) <cmp> v` row-wise: a null compares to
null and the row is dropped by `filter`. -/
def cmpRow (cmp : Int → Int → Bool) (c : String) (v : Int) (r : Row) : Bool :=
  match r.getVal c with
  | some x => cmp x v
  | none => false

/-- The `for filter_cond in plan["filters"]` loop: the three supported
operators filter the frame; any other operator falls through silently (the
source has no else branch, only the comment `Add more filter operations as
needed`). -/
def applyFilters (fs : List FilterCond) (df : Table) :
    Except QueryError Table :=
  match fs with
  | [] => .ok df
  | f :: rest =>
    if f.op == ">=" then
      applyFilters rest (df.filter (cmpRow (fun x v => x ≥ v) f.col f.val))
    else if f.op == "<=" then
      applyFilters rest (df.filter (cmpRow (fun x v => x ≤ v) f.col f.val))
    else if f.op == "==" then
      applyFilters rest (df.filter (cmpRow (fun x v => x == v) f.col f.val))
    else
      applyFilters rest df

/-- Embedding of `df.select(plan["select"])`: project each row to the named columns in
the given order. -/
def applySelect (cols : List String) (df : Table) : Table :=
  df.map (fun r => cols.map (fun c => (c, r.getVal c)))

/-- The group key of a row: the tuple of its group-by column values. -/
def keyOf (group_cols : List String) (r : Row) : List Value :=
  group_cols.map r.getVal

/-- Polars `sum` aggregate: sum of the non-null values of the column
(0 on an all-null or empty group). -/
def aggSum (c : String) (rows : Table) : Int :=
  (rows.filterMap (fun r => r.getVal c)).sum

/-- Polars `count` aggregate: number of non-null values of the column. -/
def aggCount (c : String) (rows : Table) : Nat :=
  (rows.filterMap (fun r => r.getVal c)).length

/-- The `for agg in plan["aggs"]` loop building `agg_exprs`: `sum` and
`count` produce a column named `<fn>_<col>`; other functions are skipped
(the source appends nothing for them). -/
def aggColumns (aggs : List AggSpec) (rows : Table) : Row :=
  aggs.filterMap (fun a =>
    if a.fn == "sum" then
      some ("sum_" ++ a.col, some (aggSum a.col rows))
    else if a.fn == "count" then
      some ("count_" ++ a.col, some ((aggCount a.col rows : Nat) : Int))
    else none)

/-- Embedding of `df.group_by(group_cols).agg(agg_exprs)`: one output row per distinct
group key (modelled in first-appearance order, one legal order for the
unordered Polars group-by), carrying the key columns and the aggregates. -/
def groupAgg (group_cols : List String) (aggs : List AggSpec) (df : Table) :
    Table :=
  ((df.map (keyOf group_cols)).eraseDups).map (fun k =>
    group_cols.zip k ++
      aggColumns aggs (df.filter (fun r => keyOf group_cols r == k)))

/-- The `if plan.get("groupby") and plan.get("aggs")` stage: grouping runs
only when both keys are truthy, otherwise the frame passes through. -/
def groupStage (groupby : Option (List String)) (aggs : Option (List AggSpec))
    (df : Table) : Table :=
  if pyTruthyList groupby && pyTruthyList aggs then
    groupAgg (groupby.getD []) (aggs.getD []) df
  else df

/-- The `if plan.get("limit")` stage: `df.limit(n)` runs only when the key
is present and non-zero. -/
def limitStage (limit : Option Nat) (df : Table) : Table :=
  if pyTruthyNat limit then df.take (limit.getD 0) else df

/-- Embedding of `DataProcessor.execute_query`, from the point where the source table
has been loaded: filters, then select, then group/aggregate, then limit,
in that fixed order. -/
def execute_query (plan : QueryPlan) (df0 : Table) :
    Except QueryError Table :=
  match (if pyTruthyList plan.filters then
           applyFilters (plan.filters.getD []) df0
         else .ok df0) with
  | .error e => .error e
  | .ok df1 =>
    let df2 := if pyTruthyList plan.select then
        applySelect (plan.select.getD []) df1
      else df1
    let df3 := groupStage plan.groupby plan.aggs df2
    .ok (limitStage plan.limit df3)

/-- The `limit` default of the Pydantic `QueryPlan` model
(`app/models/schemas.py`): a request that omits `limit` is validated to
`limit = 50000`, and the endpoint passes `request.plan.dict()` on. -/
def defaultQueryLimit : Nat := 50000

/-- The plan dict produced by `QueryRequest.plan.dict()` for a request whose
`limit` field is `limitField` (absent ⇒ the Pydantic default). -/
def planOfRequest (filters : Option (List FilterCond))
    (select : Option (List String)) (groupby : Option (List String))
    (aggs : Option (List AggSpec)) (limitField : Option Nat) : QueryPlan :=
  { filters := filters, select := select, groupby := groupby, aggs := aggs,
    limit := some (limitField.getD defaultQueryLimit) }

/-! ## Basic store lemmas -/

theorem get_job_setJob (s : Store) (t : Nat) (j : Job) :
    get_job (setJob s t j) t = some j := by
  simp [get_job, setJob, List.find?]

theorem createTokens_eq_range' (n : Nat) :
    ∀ st : JobManagerState,
      createTokens n st = List.range' (st.job_counter + 1) n := by
  induction n with
  | zero => intro st; simp [createTokens]
  | succ n ih =>
    intro st
    simp [createTokens, create_job, ih, List.range'_succ]

theorem applyFilters_ne_error :
    ∀ (fs : List FilterCond) (df : Table) (e : QueryError),
      applyFilters fs df ≠ .error e := by
  intro fs
  induction fs with
  | nil => intro df e h; simp [applyFilters] at h
  | cons f rest ih =>
    intro df e h
    unfold applyFilters at h
    split at h
    · exact ih _ e h
    · split at h
      · exact ih _ e h
      · split at h
        · exact ih _ e h
        · exact ih _ e h

/-! ## Concrete scenarios used by the claim theorems -/

/-- Store state after one `create_job` call on a fresh manager. -/
def afterCreate : JobManagerState := (create_job initJobManager "query" [] 0).2

/-- Store state after the job has then been cancelled. -/
def afterCancel : Store := (cancel_job afterCreate.store 1 1).2

/-- Store state after the work function, unaware of the cancellation,
reports completion the way `_process_query` does. -/
def afterLateComplete : Store :=
  update_job_status afterCancel 1 "completed"
    (some "Query completed: 1 rows") (some [("rows", "1")]) none 2

/-- Store state after the work function reports a failure with an error
message, the way the `except` branch of `_process_query` does. -/
def afterFail : Store :=
  update_job_status afterCreate.store 1 "failed" none none (some "boom") 1

/-- Store state after a further error-free status update on the failed
job. -/
def afterFailThenComplete : Store :=
  update_job_status afterFail 1 "completed" none none none 2

/-- The three-row table of the specification's interpreter example. -/
def exampleTable : Table :=
  [[("a", some 1), ("b", some 10)],
   [("a", some 2), ("b", some 20)],
   [("a", some 1), ("b", some 30)]]

/-- The plan of the specification's interpreter example. -/
def examplePlan : QueryPlan :=
  { filters := some [{ col := "a", op := "==", val := 1 }],
    select := none, groupby := some ["a"],
    aggs := some [{ col := "b", fn := "sum" }], limit := none }

/-- A plan whose only content is an explicit `limit` of 0. -/
def limitZeroPlan : QueryPlan :=
  { filters := none, select := none, groupby := none, aggs := none,
    limit := some 0 }

/-- A plan whose only content is an explicit `limit` of 1. -/
def limitOnePlan : QueryPlan :=
  { filters := none, select := none, groupby := none, aggs := none,
    limit := some 1 }

/-- A plan with a single filter using the unsupported operator `!=`. -/
def unknownOpPlan : QueryPlan :=
  { filters := some [{ col := "a", op := "!=", val := 1 }],
    select := none, groupby := none, aggs := none, limit := none }

/-- One-row, one-column table. -/
def oneRowTable : Table := [[("a", some 1)]]

/-- Two-row, one-column table. -/
def twoRowTable : Table := [[("a", some 1)], [("a", some 2)]]

/-- Five eligible delimited-text files in one directory. -/
def fiveCsvDir : List FsEntry :=
  [{ path := "a.csv", isFile := true, suffix := ".csv" },
   { path := "b.csv", isFile := true, suffix := ".csv" },
   { path := "c.csv", isFile := true, suffix := ".csv" },
   { path := "d.csv", isFile := true, suffix := ".csv" },
   { path := "e.csv", isFile := true, suffix := ".csv" }]

/-- A directory with a single eligible file. -/
def oneCsvDir : List FsEntry :=
  [{ path := "a.csv", isFile := true, suffix := ".csv" }]

/-! ## Claim theorems -/

/-- C1: code bug. The specification's invariant says a job in a terminal
status never transitions again and that a `complete`/`fail` reported by the
work function after cancellation is ignored. The source's
`update_job_status` overwrites `status` unconditionally, so the late
completion report of `_process_query` moves a `cancelled` job to
`completed`. -/
theorem late_complete_overwrites_cancelled :
    (get_job afterCancel 1).map Job.status = some "cancelled" ∧
    (get_job afterLateComplete 1).map Job.status = some "completed" ∧
    ("completed" : String) ≠ "cancelled" :=
  ⟨rfl, rfl, by decide⟩

/-- C2: `cancel_job` returns true, sets the status to `"cancelled"` and
appends one progress step exactly when the stored job's status is
`"pending"` or `"running"`; for a job in any other status, or an unknown
token, it returns false and leaves the store (hence the job's status)
unchanged. -/
theorem cancel_job_spec (s : Store) (t now : Nat) :
    ((cancel_job s t now).1 = true ↔
      ∃ jd, get_job s t = some jd ∧
        (jd.status = "pending" ∨ jd.status = "running")) ∧
    (∀ jd, get_job s t = some jd →
      (jd.status = "pending" ∨ jd.status = "running") →
      get_job (cancel_job s t now).2 t = some
        { jd with status := "cancelled",
                  steps := jd.steps ++
                    [{ step := jd.steps.length + 1,
                       message := "Job cancelled by user",
                       timestamp := now }] }) ∧
    ((cancel_job s t now).1 = false → (cancel_job s t now).2 = s) := by
  refine ⟨⟨?_, ?_⟩, ?_, ?_⟩
  · intro h
    cases hg : get_job s t with
    | none => simp [cancel_job, hg] at h
    | some jd =>
      by_cases hst : jd.status = "pending" ∨ jd.status = "running"
      · exact ⟨jd, rfl, hst⟩
      · simp [cancel_job, hg, hst] at h
  · rintro ⟨jd, hg, hst⟩
    simp [cancel_job, hg, hst]
  · intro jd hg hst
    have hc : cancel_job s t now =
        (true, update_job_status s t "cancelled"
          (some "Job cancelled by user") none none now) := by
      simp [cancel_job, hg, hst]
    rw [hc]
    unfold update_job_status
    rw [hg]
    have hmsg : ("Job cancelled by user").isEmpty = false := by decide
    simp [pyTruthyStr, pyTruthyList, get_job_setJob, hmsg]
  · intro h
    cases hg : get_job s t with
    | none => simp [cancel_job, hg]
    | some jd =>
      by_cases hst : jd.status = "pending" ∨ jd.status = "running"
      · simp [cancel_job, hg, hst] at h
      · simp [cancel_job, hg, hst]

/-- C2 witness: cancelling the freshly created pending job succeeds and
rewrites its record as stated. -/
theorem cancel_job_spec_witness :
    get_job (cancel_job afterCreate.store 1 7).2 1 = some
      { token := 1, jobType := "query", status := "cancelled",
        created_at := 0, params := [],
        steps := [{ step := 1, message := "Job cancelled by user",
                    timestamp := 7 }],
        data := none, error := none } :=
  (cancel_job_spec afterCreate.store 1 7).2.1
    { token := 1, jobType := "query", status := "pending", created_at := 0,
      params := [], steps := [], data := none, error := none }
    rfl (Or.inl rfl)

/-- C7: across any number of `create_job` calls in one process lifetime,
the returned tokens are positive, strictly increasing and pairwise
distinct (hence never reused). -/
theorem create_job_tokens_mono (n : Nat) :
    (∀ x ∈ createTokens n initJobManager, 0 < x) ∧
    List.Pairwise (· < ·) (createTokens n initJobManager) ∧
    (createTokens n initJobManager).Nodup := by
  have h := createTokens_eq_range' n initJobManager
  rw [show initJobManager.job_counter + 1 = 1 from rfl] at h
  refine ⟨?_, ?_, ?_⟩
  · intro x hx
    rw [h] at hx
    have := List.mem_range'_1.1 hx
    omega
  · rw [h]; exact List.pairwise_lt_range' 1 n
  · rw [h]; exact List.nodup_range' 1 n

/-- C7 witness: the second of three successive creations yields a positive
token and the trace of three is strictly increasing. -/
theorem create_job_tokens_mono_witness :
    0 < 2 ∧ List.Pairwise (· < ·) (createTokens 3 initJobManager) :=
  ⟨(create_job_tokens_mono 3).1 2 (by decide), (create_job_tokens_mono 3).2.1⟩

/-- C10 (amended): a call to `update_job_status` that carries a non-empty
error message leaves the stored record with status `"failed"` regardless
of the `status` argument of that call. (This does not make "non-null
`error` implies status `failed`" a store invariant: the error field is
never cleared, so a later error-free update can move the status while the
stale error persists — see the counterexample.) -/
theorem update_with_error_forces_failed (s : Store) (t : Nat)
    (status : String) (step : Option String) (data : Option Payload)
    (e : String) (now : Nat) (jd : Job)
    (hg : get_job s t = some jd) (he : e ≠ "") :
    (get_job (update_job_status s t status step data (some e) now) t).map
      Job.status = some "failed" := by
  have hte : pyTruthyStr (some e) = true := by
    have h1 : e.isEmpty = false := by
      cases hb : e.isEmpty with
      | false => rfl
      | true => exact absurd ((String.isEmpty_iff e).mp hb) he
    simp [pyTruthyStr, h1]
  unfold update_job_status
  rw [hg]
  simp [hte, get_job_setJob]

/-- C10 witness: reporting status `"running"` together with error
`"boom"` on the fresh pending job stores status `"failed"`. -/
theorem update_with_error_forces_failed_witness :
    (get_job (update_job_status afterCreate.store 1 "running" none none
        (some "boom") 1) 1).map Job.status = some "failed" :=
  update_with_error_forces_failed afterCreate.store 1 "running" none none
    "boom" 1
    { token := 1, jobType := "query", status := "pending", created_at := 0,
      params := [], steps := [], data := none, error := none }
    rfl (by decide)

/-- C10 counterexample: after a failing update with error `"boom"`, a
later error-free update to `"completed"` leaves a stored record whose
error is non-null while its status is not `"failed"`, refuting the
claimed store-wide consequence. -/
theorem stale_error_with_completed_status :
    (get_job afterFailThenComplete 1).map (fun j => (j.error, j.status)) =
      some (some "boom", "completed") ∧
    ("completed" : String) ≠ "failed" :=
  ⟨rfl, by decide⟩

theorem limitStage_length_le (n : Nat) (hn : 0 < n) (df : Table) :
    (limitStage (some n) df).length ≤ n := by
  have hne : (n != 0) = true := by
    simpa [bne_iff_ne] using Nat.pos_iff_ne_zero.mp hn
  simp only [limitStage, pyTruthyNat, hne, if_true, Option.getD_some,
    List.length_take]
  exact Nat.min_le_left _ _

/-- C3 (amended): the result of `execute_query` has at most `plan.limit`
rows whenever a positive limit is given, and at most the Pydantic default
cap of 50000 when the request carries no explicit limit (the validated
plan dict then holds `limit = 50000`). An explicit limit of 0 is falsy for
the `if plan.get("limit")` guard and disables truncation — see the
counterexample. -/
theorem execute_query_limit_bound :
    (∀ (plan : QueryPlan) (df r : Table) (n : Nat),
        plan.limit = some n → 0 < n →
        execute_query plan df = .ok r → r.length ≤ n) ∧
    (∀ (filters : Option (List FilterCond)) (select : Option (List String))
        (groupby : Option (List String)) (aggs : Option (List AggSpec))
        (df r : Table),
        execute_query (planOfRequest filters select groupby aggs none) df =
          .ok r → r.length ≤ defaultQueryLimit) := by
  have main : ∀ (plan : QueryPlan) (df r : Table) (n : Nat),
      plan.limit = some n → 0 < n →
      execute_query plan df = .ok r → r.length ≤ n := by
    intro plan df r n hlim hpos hexec
    unfold execute_query at hexec
    cases hf : (if pyTruthyList plan.filters then
        applyFilters (plan.filters.getD []) df else Except.ok df) with
    | error e => rw [hf] at hexec; cases hexec
    | ok df1 =>
      rw [hf] at hexec
      simp only [Except.ok.injEq] at hexec
      subst hexec
      rw [hlim]
      exact limitStage_length_le n hpos _
  refine ⟨main, ?_⟩
  intro filters select groupby aggs df r hexec
  exact main _ df r defaultQueryLimit rfl (by decide) hexec

/-- C3 witness: with explicit limit 1 over a two-row table the result is
the first row alone, of length at most 1. -/
theorem execute_query_limit_bound_witness :
    List.length ([[("a", some 1)]] : Table) ≤ 1 :=
  execute_query_limit_bound.1 limitOnePlan twoRowTable [[("a", some 1)]] 1
    rfl (by decide) (by rfl)

/-- C3 counterexample: with an explicit limit of 0 the guard
`if plan.get("limit")` is falsy, so the one-row table comes back whole and
the result does not have at most 0 rows. -/
theorem limit_zero_is_ignored :
    execute_query limitZeroPlan oneRowTable = .ok oneRowTable ∧
    ¬ (oneRowTable.length ≤ 0) :=
  ⟨rfl, by decide⟩

/-- C4: on the specification's example — rows
`[(a 1, b 10), (a 2, b 20), (a 1, b 30)]`, plan with filter `a == 1`,
group-by `a` and aggregate `sum b` — the interpreter (filters, then
select, then group/aggregate, then limit, in that order) yields exactly
the single row `(a 1, sum_b 40)`. -/
theorem execute_query_example :
    execute_query examplePlan exampleTable =
      .ok [[("a", some 1), ("sum_b", some 40)]] := rfl

/-- C5 counterexample: a plan whose only filter uses the unsupported
operator `!=` does not fail: `execute_query` returns the table unchanged
and never an error. -/
theorem unknown_operator_no_error :
    execute_query unknownOpPlan oneRowTable = .ok oneRowTable ∧
    ∀ e, execute_query unknownOpPlan oneRowTable ≠ .error e := by
  refine ⟨rfl, fun e h => ?_⟩
  rw [show execute_query unknownOpPlan oneRowTable = .ok oneRowTable
    from rfl] at h
  cases h

/-- C5 (amended): a filter whose operator is outside the supported set
`>=`, `<=`, `==` is silently skipped (the loop has no else branch), and
`execute_query` never fails with an `UnsupportedOperator`-style error. -/
theorem unknown_operator_is_skipped :
    (∀ (f : FilterCond) (fs : List FilterCond) (df : Table),
        f.op ∉ ([">=", "<=", "=="] : List String) →
        applyFilters (f :: fs) df = applyFilters fs df) ∧
    (∀ (plan : QueryPlan) (df : Table) (e : QueryError),
        execute_query plan df ≠ .error e) := by
  constructor
  · intro f fs df h
    simp only [List.mem_cons, List.not_mem_nil, or_false, not_or] at h
    obtain ⟨h1, h2, h3⟩ := h
    conv_lhs => rw [applyFilters]
    simp [h1, h2, h3]
  · intro plan df e h
    unfold execute_query at h
    cases hf : (if pyTruthyList plan.filters then
        applyFilters (plan.filters.getD []) df else Except.ok df) with
    | error e2 =>
      by_cases hp : pyTruthyList plan.filters = true
      · rw [if_pos hp] at hf
        exact applyFilters_ne_error _ _ _ hf
      · rw [if_neg hp] at hf
        cases hf
    | ok df1 =>
      rw [hf] at h
      simp at h

/-- C5 witness: the `!=` filter is skipped on a concrete table. -/
theorem unknown_operator_is_skipped_witness :
    applyFilters [{ col := "a", op := "!=", val := 1 }] oneRowTable =
      applyFilters [] oneRowTable :=
  unknown_operator_is_skipped.1 { col := "a", op := "!=", val := 1 } []
    oneRowTable (by decide)

theorem discoverLoop_length_le (m : Nat) (hm : 0 < m) :
    ∀ (entries acc : List FsEntry), acc.length < m →
      (discoverLoop entries acc (some m)).length ≤ m := by
  have hne : (m != 0) = true := by
    simpa [bne_iff_ne] using Nat.pos_iff_ne_zero.mp hm
  intro entries
  induction entries with
  | nil => intro acc h; simpa [discoverLoop] using Nat.le_of_lt h
  | cons e rest ih =>
    intro acc h
    rw [discoverLoop]
    simp only [Option.getD_some]
    by_cases helig : (e.isFile && _is_supported_file e) = true
    · rw [if_pos helig]
      by_cases hbrk :
          (pyTruthyNat (some m) && decide ((acc ++ [e]).length ≥ m)) = true
      · rw [if_pos hbrk]
        simp only [List.length_append, List.length_singleton]
        omega
      · rw [if_neg hbrk]
        have hlt : (acc ++ [e]).length < m := by
          rcases Nat.lt_or_ge ((acc ++ [e]).length) m with hc | hc
          · exact hc
          · exact absurd (by simp [pyTruthyNat, hne]; simpa using hc) hbrk
        exact ih (acc ++ [e]) hlt
    · rw [if_neg helig]
      exact ih acc h

theorem discoverLoop_stops (m : Nat) (hm : 0 < m) :
    ∀ (entries extra acc : List FsEntry), acc.length < m →
      (discoverLoop entries acc (some m)).length = m →
      discoverLoop (entries ++ extra) acc (some m) =
        discoverLoop entries acc (some m) := by
  have hne : (m != 0) = true := by
    simpa [bne_iff_ne] using Nat.pos_iff_ne_zero.mp hm
  intro entries
  induction entries with
  | nil =>
    intro extra acc hlt hlen
    simp only [discoverLoop] at hlen
    omega
  | cons e rest ih =>
    intro extra acc hlt hlen
    rw [List.cons_append]
    rw [discoverLoop] at hlen ⊢
    conv_rhs => rw [discoverLoop]
    simp only [Option.getD_some] at hlen ⊢
    by_cases helig : (e.isFile && _is_supported_file e) = true
    · rw [if_pos helig] at hlen ⊢
      rw [if_pos helig]
      by_cases hbrk :
          (pyTruthyNat (some m) && decide ((acc ++ [e]).length ≥ m)) = true
      · rw [if_pos hbrk, if_pos hbrk]
      · have hlt' : (acc ++ [e]).length < m := by
          rcases Nat.lt_or_ge ((acc ++ [e]).length) m with hc | hc
          · exact hc
          · exact absurd (by simp [pyTruthyNat, hne]; simpa using hc) hbrk
        rw [if_neg hbrk] at hlen ⊢
        rw [if_neg hbrk]
        exact ih extra (acc ++ [e]) hlt' hlen
    · rw [if_neg helig] at hlen ⊢
      rw [if_neg helig]
      exact ih extra acc hlt hlen

/-- C6 (amended): for every positive `max_files` value, `discover_files`
returns at most that many descriptors and, once that many allow-listed
matches have been collected, further entries are never examined; with
`max_files = 2` over a directory of 5 eligible files it returns exactly 2.
A `max_files` of 0 is falsy for the `if max_files and ...` break guard and
applies no cap — see the counterexample. -/
theorem discover_files_max_files :
    (∀ (entries : List FsEntry) (m : Nat), 0 < m →
        (discover_files entries (some m)).length ≤ m) ∧
    (∀ (entries extra : List FsEntry) (m : Nat), 0 < m →
        (discover_files entries (some m)).length = m →
        discover_files (entries ++ extra) (some m) =
          discover_files entries (some m)) ∧
    (discover_files fiveCsvDir (some 2)).length = 2 := by
  refine ⟨?_, ?_, by rfl⟩
  · intro entries m hm
    exact discoverLoop_length_le m hm entries [] (by simpa using hm)
  · intro entries extra m hm hlen
    exact discoverLoop_stops m hm entries extra [] (by simpa using hm) hlen

/-- C6 witness: the five-file directory capped at 2 yields at most 2
descriptors. -/
theorem discover_files_max_files_witness :
    (discover_files fiveCsvDir (some 2)).length ≤ 2 :=
  discover_files_max_files.1 fiveCsvDir 2 (by decide)

/-- C6 counterexample: with `max_files = 0` the break guard is falsy, so a
directory with one eligible file yields one descriptor, not at most 0. -/
theorem discover_files_zero_cap :
    ¬ ((discover_files oneCsvDir (some 0)).length ≤ 0) := by decide

/-- C8: `_load_file` fails (with the unsupported-format error) exactly
when the case-insensitive extension is outside the supported set, and for
each supported extension it selects the matching decoder. -/
theorem load_file_decoder_spec (s : String) :
    ((∃ err, _load_file s = .error err) ↔
      strLower s ∉ ([".parquet", ".csv", ".jsonl"] : List String)) ∧
    (strLower s = ".csv" → _load_file s = .ok .read_csv) ∧
    (strLower s = ".parquet" → _load_file s = .ok .read_parquet) ∧
    (strLower s = ".jsonl" → _load_file s = .ok .read_ndjson) := by
  refine ⟨?_, ?_, ?_, ?_⟩
  · by_cases h1 : strLower s = ".csv"
    · simp [_load_file, h1]
    · by_cases h2 : strLower s = ".parquet"
      · simp [_load_file, h1, h2]
      · by_cases h3 : strLower s = ".jsonl"
        · simp [_load_file, h1, h2, h3]
        · simp [_load_file, h1, h2, h3]
  · intro h; simp [_load_file, h]
  · intro h; simp [_load_file, h]
  · intro h; simp [_load_file, h]

/-- C8 witness: an upper-case `.CSV` extension selects the delimited-text
decoder. -/
theorem load_file_decoder_spec_witness :
    _load_file ".CSV" = .ok .read_csv :=
  (load_file_decoder_spec ".CSV").2.1 (by decide)

/-- C9: when `groupby` is given without `aggs` or `aggs` without
`groupby`, the group/aggregate stage of `execute_query` is an identity on
the table (and, being a total function of the embedding, raises nothing). -/
theorem groupStage_passthrough (groupby : Option (List String))
    (aggs : Option (List AggSpec)) (df : Table)
    (h : aggs = none ∨ groupby = none) :
    groupStage groupby aggs df = df := by
  cases h with
  | inl ha => subst ha; simp [groupStage, pyTruthyList]
  | inr hg => subst hg; simp [groupStage, pyTruthyList]

/-- C9 witness: a group-by without aggregates passes the one-row table
through unchanged. -/
theorem groupStage_passthrough_witness :
    groupStage (some ["a"]) none oneRowTable = oneRowTable :=
  groupStage_passthrough (some ["a"]) none oneRowTable (Or.inl rfl)
